import Mathlib

/-!
Verification of the Weibull wind-analysis core of the Probabilidades
repository.  The numeric kernel (the DistribucionWeibull class of
distribucion_weibull.py, the estimation equations of
ecuaciones_weibull_especificas.py and the estimator of
analisis_viento_weibull.py / analisis_weibull_colombia.py) is shallowly
embedded over the real numbers: numpy array formulas become functions on
real lists, `raise` statements become an `Except` error channel, and the
one genuinely non-real value the scripts can produce (the infinite
percentile at p = 1 under IEEE arithmetic) is rendered once more over
the extended non-negative reals.
-/

open scoped ENNReal

/-- Error channel of the embedded scripts.  `invalidParameter` is the
ValueError raised by the DistribucionWeibull constructor validation,
`invalidArgument` the ValueError raised by the percentile range check,
`degenerateSample` the DegenerateSampleError postulated by the spec (no
statement in the code produces it), `zeroDivisionError` the Python
ZeroDivisionError from dividing a plain float by 0.0, and `valueError`
the numpy ValueError from a reduction over an empty array. -/
inductive PyError where
  | invalidParameter
  | invalidArgument
  | degenerateSample
  | zeroDivisionError
  | valueError
deriving DecidableEq

/-- Embedding of np.mean: sum of the observations divided by their
number (junk value 0 on the empty list, where numpy returns NaN). -/
noncomputable def np_mean (xs : List ℝ) : ℝ := xs.sum / (xs.length : ℝ)

/-- Embedding of the variance part of np.std(xs, ddof=1): sum of squared
deviations from the mean divided by n - 1 (junk value on n < 2, where
numpy returns NaN). -/
noncomputable def np_var_ddof1 (xs : List ℝ) : ℝ :=
  ((xs.map (fun x => (x - np_mean xs) ^ 2)).sum) / ((xs.length : ℝ) - 1)

/-- Embedding of np.std(xs, ddof=1), the sample standard deviation with
the unbiased n - 1 divisor. -/
noncomputable def np_std_ddof1 (xs : List ℝ) : ℝ := Real.sqrt (np_var_ddof1 xs)

/-- Embedding of EcuacionesWeibullViento.ecuacion_3_parametro_k
(ecuaciones_weibull_especificas.py): k = (sigma / v_promedio)^(-1.09). -/
noncomputable def ecuacion_3_parametro_k (v_promedio sigma : ℝ) : ℝ :=
  (sigma / v_promedio) ^ (-1.09 : ℝ)

/-- Embedding of EcuacionesWeibullViento.ecuacion_4_parametro_c
(ecuaciones_weibull_especificas.py): c = v_promedio / Gamma(1 + 1/k). -/
noncomputable def ecuacion_4_parametro_c (v_promedio k : ℝ) : ℝ :=
  v_promedio / Real.Gamma (1 + 1 / k)

/-- Embedding of EcuacionesWeibullViento.ecuacion_1_pdf
(ecuaciones_weibull_especificas.py): the input is first clamped by
np.maximum(v, 1e-10) and the Weibull density formula is applied to the
clamped value. -/
noncomputable def ecuacion_1_pdf (v k c : ℝ) : ℝ :=
  (k / c) * ((max v 1e-10) / c) ^ (k - 1) *
    Real.exp (-(((max v 1e-10) / c) ^ k))

/-- Embedding of EcuacionesWeibullViento.ecuacion_5_velocidad_mas_probable
(ecuaciones_weibull_especificas.py): 0 for k <= 1, else
c * ((k-1)/k)^(1/k). -/
noncomputable def ecuacion_5_velocidad_mas_probable (k c : ℝ) : ℝ :=
  if k ≤ 1 then 0 else c * (((k - 1) / k) ^ (1 / k))

/-- Embedding of AnalisisVientoWeibull.calcular_parametros_weibull
(analisis_viento_weibull.py): mean, sample standard deviation (ddof=1),
coefficient of variation, then k = cv^(-1.09) and
c = v_media / Gamma(1 + 1/k), returned as the pair (k, c). -/
noncomputable def calcular_parametros_weibull (velocidades : List ℝ) : ℝ × ℝ :=
  let v_media := np_mean velocidades
  let sigma := np_std_ddof1 velocidades
  let coef_variacion := sigma / v_media
  let k := coef_variacion ^ (-1.09 : ℝ)
  let c := v_media / Real.Gamma (1 + 1 / k)
  (k, c)

/-- Embedding of the estimation path of
EcuacionesWeibullViento.procesar_datos_ciudad
(ecuaciones_weibull_especificas.py), printing and result packaging
elided.  The body of the Python function contains no raise statement and
no degenerate-sample validation; the only failures on its estimation
path are incidental: np.min over an empty array raises numpy's
ValueError, and the division sigma / v_promedio (performed on plain
Python floats after the float(...) conversions) raises
ZeroDivisionError when the sample mean is exactly 0.  Every other input
flows through the formulas unconditionally. -/
noncomputable def procesar_datos_ciudad (velocidades : List ℝ) :
    Except PyError (ℝ × ℝ) :=
  if velocidades.length = 0 then Except.error PyError.valueError
  else if np_mean velocidades = 0 then Except.error PyError.zeroDivisionError
  else
    let v_promedio := np_mean velocidades
    let sigma := np_std_ddof1 velocidades
    let k := ecuacion_3_parametro_k v_promedio sigma
    let c := ecuacion_4_parametro_c v_promedio k
    Except.ok (k, c)

/-- Embedding of the verification step of
analisis_weibull_colombia.aplicar_ecuaciones_municipio (lines 144-151):
the theoretical mean c * Gamma(1 + 1/k) is recomputed from the fitted
parameters and the relative error against the observed mean is
reported (as a percentage); the step computes and prints only. -/
noncomputable def error_relativo (velocidades : List ℝ) : ℝ :=
  let v_promedio := np_mean velocidades
  let sigma := np_std_ddof1 velocidades
  let k := ecuacion_3_parametro_k v_promedio sigma
  let c := ecuacion_4_parametro_c v_promedio k
  let v_media_teorica := c * Real.Gamma (1 + 1 / k)
  |v_media_teorica - v_promedio| / v_promedio * 100

/-- The Weibull model object of distribucion_weibull.py: a shape
parameter k and a scale parameter lambda_param, stored unchanged. -/
structure DistribucionWeibull where
  k : ℝ
  lambda_param : ℝ

/-- Embedding of DistribucionWeibull.__init__: raises (ValueError, the
InvalidParameterError of the spec) when k <= 0 or lambda_param <= 0,
otherwise stores exactly the given parameters. -/
noncomputable def DistribucionWeibull.init (k lambda_param : ℝ) :
    Except PyError DistribucionWeibull :=
  if k ≤ 0 then Except.error PyError.invalidParameter
  else if lambda_param ≤ 0 then Except.error PyError.invalidParameter
  else Except.ok ⟨k, lambda_param⟩

/-- The two-parameter Weibull density formula
(k/c) * (v/c)^(k-1) * e^(-(v/c)^k), as written in the spec. -/
noncomputable def weibull_density (k c v : ℝ) : ℝ :=
  (k / c) * (v / c) ^ (k - 1) * Real.exp (-((v / c) ^ k))

/-- Embedding of DistribucionWeibull.pdf: 0 on negative inputs, the
Weibull density formula on non-negative inputs. -/
noncomputable def DistribucionWeibull.pdf (w : DistribucionWeibull) (x : ℝ) : ℝ :=
  if 0 ≤ x then
    (w.k / w.lambda_param) * (x / w.lambda_param) ^ (w.k - 1) *
      Real.exp (-((x / w.lambda_param) ^ w.k))
  else 0

/-- Embedding of DistribucionWeibull.cdf: 0 on negative inputs,
1 - e^(-(x/lambda)^k) on non-negative inputs. -/
noncomputable def DistribucionWeibull.cdf (w : DistribucionWeibull) (x : ℝ) : ℝ :=
  if 0 ≤ x then 1 - Real.exp (-((x / w.lambda_param) ^ w.k)) else 0

/-- Embedding of DistribucionWeibull.survival_function: 1 - cdf(x). -/
noncomputable def DistribucionWeibull.survival_function
    (w : DistribucionWeibull) (x : ℝ) : ℝ :=
  1 - w.cdf x

/-- Embedding of DistribucionWeibull.hazard_function: 0 for x <= 0 and
the closed form (k/lambda) * (x/lambda)^(k-1) for x > 0 (the source
masks on x > 0 and applies the simplified formula, not a division). -/
noncomputable def DistribucionWeibull.hazard_function
    (w : DistribucionWeibull) (x : ℝ) : ℝ :=
  if 0 < x then (w.k / w.lambda_param) * (x / w.lambda_param) ^ (w.k - 1)
  else 0

/-- Embedding of DistribucionWeibull.moda: 0 for k <= 1, else
lambda * ((k-1)/k)^(1/k). -/
noncomputable def DistribucionWeibull.moda (w : DistribucionWeibull) : ℝ :=
  if w.k ≤ 1 then 0
  else w.lambda_param * (((w.k - 1) / w.k) ^ (1 / w.k))

/-- Embedding of DistribucionWeibull.percentil: raises (ValueError, the
InvalidArgumentError of the spec) when p is outside the inclusive range
[0, 1], otherwise evaluates lambda * (-log(1-p))^(1/k).  Real-valued
rendering: at p = 1 the logarithm is taken at 0, outside its domain,
where the Lean junk value is log 0 = 0 while the code's IEEE arithmetic
gives -infinity (see percentil_ieee). -/
noncomputable def DistribucionWeibull.percentil (w : DistribucionWeibull)
    (p : ℝ) : Except PyError ℝ :=
  if 0 ≤ p ∧ p ≤ 1 then
    Except.ok (w.lambda_param * ((-Real.log (1 - p)) ^ (1 / w.k)))
  else Except.error PyError.invalidArgument

/-- The same percentile computation rendered over the extended
non-negative reals, mirroring the code's IEEE float semantics on the
range-checked domain: there np.log(0.0) is -infinity, so
-np.log(1-p) at p = 1 is +infinity (here the top element), and the
subsequent power and product propagate it. -/
noncomputable def DistribucionWeibull.percentil_ieee (w : DistribucionWeibull)
    (p : ℝ) : Except PyError ℝ≥0∞ :=
  if 0 ≤ p ∧ p ≤ 1 then
    Except.ok (ENNReal.ofReal w.lambda_param *
      (if 1 - p = 0 then (⊤ : ℝ≥0∞) else ENNReal.ofReal (-Real.log (1 - p)))
        ^ (1 / w.k))
  else Except.error PyError.invalidArgument

/-- An Except value that did not raise. -/
def isOkE {ε α : Type} : Except ε α → Bool
  | Except.ok _ => true
  | Except.error _ => false

/-- Specification-side sample mean (spec section 4.2, step 1). -/
noncomputable def spec_sample_mean (xs : List ℝ) : ℝ :=
  xs.sum / (xs.length : ℝ)

/-- Specification-side sample standard deviation with the n - 1
(unbiased) divisor (spec section 4.2, step 1). -/
noncomputable def spec_sample_std (xs : List ℝ) : ℝ :=
  Real.sqrt (((xs.map (fun x => (x - spec_sample_mean xs) ^ 2)).sum) /
    ((xs.length : ℝ) - 1))

/-- Specification-side shape parameter (spec section 4.2, steps 2-3):
k = cv^(-1.09) with cv = sigma / mean. -/
noncomputable def spec_k (xs : List ℝ) : ℝ :=
  (spec_sample_std xs / spec_sample_mean xs) ^ (-1.09 : ℝ)

/-- Specification-side scale parameter (spec section 4.2, step 4):
c = mean / Gamma(1 + 1/k). -/
noncomputable def spec_c (xs : List ℝ) : ℝ :=
  spec_sample_mean xs / Real.Gamma (1 + 1 / spec_k xs)

/-- C1: for every sample of at least 2 real observations with positive
mean, the estimator computes the sample mean, the sample standard
deviation with the unbiased n - 1 divisor, the coefficient of variation,
and then k = cv^(-1.09) and c = mean / Gamma(1 + 1/k), exactly the
specified formulas in that order. -/
theorem c1_estimator_formulas (vs : List ℝ) (hn : 2 ≤ vs.length)
    (hm : 0 < np_mean vs) :
    np_mean vs = spec_sample_mean vs ∧
    np_std_ddof1 vs = spec_sample_std vs ∧
    calcular_parametros_weibull vs = (spec_k vs, spec_c vs) :=
  ⟨rfl, rfl, rfl⟩

/-- C1 witness at the sample [1, 2, 3]. -/
theorem c1_estimator_formulas_witness :
    2 ≤ ([1, 2, 3] : List ℝ).length ∧ 0 < np_mean [1, 2, 3] ∧
    calcular_parametros_weibull [1, 2, 3] = (spec_k [1, 2, 3], spec_c [1, 2, 3]) := by
  have h1 : 2 ≤ ([1, 2, 3] : List ℝ).length := by simp
  have h2 : 0 < np_mean ([1, 2, 3] : List ℝ) := by
    simp [np_mean]
    norm_num
  exact ⟨h1, h2, (c1_estimator_formulas [1, 2, 3] h1 h2).2.2⟩

/-- C4: constructing the model raises the parameter-validation error
exactly when k <= 0 or c <= 0, and on success stores exactly the given
pair (k, c). -/
theorem c4_init_validation (k c : ℝ) :
    (DistribucionWeibull.init k c = Except.error PyError.invalidParameter ↔
      (k ≤ 0 ∨ c ≤ 0)) ∧
    (0 < k → 0 < c → DistribucionWeibull.init k c = Except.ok ⟨k, c⟩) := by
  constructor
  · constructor
    · intro h
      by_contra hcon
      push_neg at hcon
      obtain ⟨hk, hc⟩ := hcon
      rw [DistribucionWeibull.init, if_neg (not_le.mpr hk),
        if_neg (not_le.mpr hc)] at h
      exact absurd h (by simp)
    · intro h
      rcases h with hk | hc
      · rw [DistribucionWeibull.init, if_pos hk]
      · by_cases hk : k ≤ 0
        · rw [DistribucionWeibull.init, if_pos hk]
        · rw [DistribucionWeibull.init, if_neg hk, if_pos hc]
  · intro hk hc
    rw [DistribucionWeibull.init, if_neg (not_le.mpr hk),
      if_neg (not_le.mpr hc)]

/-- C4 witness: the two boundary constructions raise and a valid
construction stores its parameters. -/
theorem c4_init_validation_witness :
    DistribucionWeibull.init 0 1 = Except.error PyError.invalidParameter ∧
    DistribucionWeibull.init 1 (-5) = Except.error PyError.invalidParameter ∧
    DistribucionWeibull.init 2 3 = Except.ok ⟨2, 3⟩ :=
  ⟨(c4_init_validation 0 1).1.mpr (Or.inl le_rfl),
   (c4_init_validation 1 (-5)).1.mpr (Or.inr (by norm_num)),
   (c4_init_validation 2 3).2 (by norm_num) (by norm_num)⟩

/-- C5: for every model with positive parameters and every real v, the
survival function is 1 - cdf(v), hence cdf(v) + survival(v) = 1. -/
theorem c5_survival_complement (k c v : ℝ) (hk : 0 < k) (hc : 0 < c) :
    DistribucionWeibull.survival_function ⟨k, c⟩ v =
      1 - DistribucionWeibull.cdf ⟨k, c⟩ v ∧
    DistribucionWeibull.cdf ⟨k, c⟩ v +
      DistribucionWeibull.survival_function ⟨k, c⟩ v = 1 := by
  refine ⟨rfl, ?_⟩
  rw [DistribucionWeibull.survival_function]
  ring

/-- C5 witness at k = 2, c = 1, v = -3. -/
theorem c5_survival_complement_witness :
    DistribucionWeibull.survival_function ⟨2, 1⟩ (-3) =
      1 - DistribucionWeibull.cdf ⟨2, 1⟩ (-3) ∧
    DistribucionWeibull.cdf ⟨2, 1⟩ (-3) +
      DistribucionWeibull.survival_function ⟨2, 1⟩ (-3) = 1 :=
  c5_survival_complement 2 1 (-3) (by norm_num) (by norm_num)

/-- C9: the mode of the model and the most-probable speed of the
estimator both equal 0 when k <= 1 and c * ((k-1)/k)^(1/k) when k > 1. -/
theorem c9_moda_velocidad_mas_probable (k c : ℝ) (hk : 0 < k) (hc : 0 < c) :
    (k ≤ 1 → DistribucionWeibull.moda ⟨k, c⟩ = 0 ∧
      ecuacion_5_velocidad_mas_probable k c = 0) ∧
    (1 < k → DistribucionWeibull.moda ⟨k, c⟩ = c * (((k - 1) / k) ^ (1 / k)) ∧
      ecuacion_5_velocidad_mas_probable k c = c * (((k - 1) / k) ^ (1 / k))) := by
  constructor
  · intro h
    constructor
    · simp [DistribucionWeibull.moda, h]
    · simp [ecuacion_5_velocidad_mas_probable, h]
  · intro h
    have hnot : ¬ k ≤ 1 := not_le.mpr h
    constructor
    · simp [DistribucionWeibull.moda, hnot]
    · simp [ecuacion_5_velocidad_mas_probable, hnot]

/-- C9 witness at k = 2, c = 3. -/
theorem c9_moda_velocidad_mas_probable_witness :
    DistribucionWeibull.moda ⟨2, 3⟩ = 3 * (((2 - 1) / 2) ^ ((1:ℝ) / 2)) ∧
    ecuacion_5_velocidad_mas_probable 2 3 = 3 * (((2 - 1) / 2) ^ ((1:ℝ) / 2)) :=
  (c9_moda_velocidad_mas_probable 2 3 (by norm_num) (by norm_num)).2 (by norm_num)

/-- C2 counterexample: the sample [-1, -3] has mean -2 <= 0 and yet the
estimation path raises nothing at all (the formulas are applied
unconditionally and return NaN-flavoured junk), contradicting the
claimed DegenerateSampleError. -/
theorem c2_no_degenerate_error_counterexample :
    isOkE (procesar_datos_ciudad [-1, -3]) = true := by
  have hlen : ¬ (([(-1:ℝ), -3] : List ℝ).length = 0) := by simp
  have hmean : np_mean [(-1:ℝ), -3] = -2 := by
    simp [np_mean]
    norm_num
  rw [procesar_datos_ciudad, if_neg hlen, if_neg (by rw [hmean]; norm_num)]
  rfl

/-- C2 amended: parameter estimation performs no degenerate-sample
validation and never raises a DegenerateSampleError.  The empty sample
fails only with numpy's incidental ValueError (empty reduction), the
sample [0, 0, 0] only with Python's ZeroDivisionError (cv division by a
zero mean), and every sample with at least one observation and nonzero
mean — including single observations and negative means — raises
nothing. -/
theorem c2_estimator_error_behavior :
    procesar_datos_ciudad [] = Except.error PyError.valueError ∧
    procesar_datos_ciudad [0, 0, 0] = Except.error PyError.zeroDivisionError ∧
    ∀ vs : List ℝ, vs.length ≠ 0 → np_mean vs ≠ 0 →
      isOkE (procesar_datos_ciudad vs) = true := by
  refine ⟨?_, ?_, ?_⟩
  · simp [procesar_datos_ciudad]
  · have hlen : ¬ (([(0:ℝ), 0, 0] : List ℝ).length = 0) := by simp
    have hmean : np_mean [(0:ℝ), 0, 0] = 0 := by simp [np_mean]
    rw [procesar_datos_ciudad, if_neg hlen, if_pos hmean]
  · intro vs hlen hmean
    rw [procesar_datos_ciudad, if_neg hlen, if_neg hmean]
    rfl

/-- C2 witness: the single-observation sample [5] (fewer than 2
observations) raises nothing. -/
theorem c2_estimator_error_behavior_witness :
    ([(5:ℝ)] : List ℝ).length ≠ 0 ∧ np_mean [(5:ℝ)] ≠ 0 ∧
    isOkE (procesar_datos_ciudad [(5:ℝ)]) = true := by
  have h1 : ([(5:ℝ)] : List ℝ).length ≠ 0 := by simp
  have h2 : np_mean [(5:ℝ)] ≠ 0 := by
    simp [np_mean]
  exact ⟨h1, h2, c2_estimator_error_behavior.2.2 [(5:ℝ)] h1 h2⟩

/-- C3 counterexample: ecuacion_1_pdf at v = -1 with k = 2, c = 1 is the
density of the clamped input 1e-10, which is positive, not the claimed
0. -/
theorem c3_pdf_counterexample : ecuacion_1_pdf (-1) 2 1 ≠ 0 := by
  have hmax : max (-1 : ℝ) 1e-10 = 1e-10 := max_eq_right (by norm_num)
  rw [ecuacion_1_pdf, hmax]
  have h1 : (0:ℝ) < 2 / 1 := by norm_num
  have h2 : (0:ℝ) < ((1e-10 : ℝ) / 1) ^ ((2:ℝ) - 1) :=
    Real.rpow_pos_of_pos (by norm_num) _
  exact ne_of_gt (mul_pos (mul_pos h1 h2) (Real.exp_pos _))

/-- C3 amended: the model pdf is 0 for v < 0 and the Weibull density for
v >= 0, but ecuacion_1_pdf first clamps its input to max(v, 1e-10), so
for v < 0 it returns the (strictly positive) density at 1e-10 instead
of 0. -/
theorem c3_pdf_amended (k c v : ℝ) (hk : 0 < k) (hc : 0 < c) :
    (v < 0 → DistribucionWeibull.pdf ⟨k, c⟩ v = 0) ∧
    (0 ≤ v → DistribucionWeibull.pdf ⟨k, c⟩ v = weibull_density k c v) ∧
    ecuacion_1_pdf v k c = weibull_density k c (max v 1e-10) ∧
    (v < 0 → 0 < ecuacion_1_pdf v k c) := by
  refine ⟨?_, ?_, rfl, ?_⟩
  · intro h
    simp [DistribucionWeibull.pdf, not_le.mpr h]
  · intro h
    simp [DistribucionWeibull.pdf, h, weibull_density]
  · intro h
    have hmax : (0:ℝ) < max v 1e-10 := lt_max_iff.mpr (Or.inr (by norm_num))
    rw [ecuacion_1_pdf]
    exact mul_pos
      (mul_pos (div_pos hk hc) (Real.rpow_pos_of_pos (div_pos hmax hc) _))
      (Real.exp_pos _)

/-- C3 witness at k = 2, c = 1, v = -1: the model pdf vanishes there
while ecuacion_1_pdf is positive. -/
theorem c3_pdf_amended_witness :
    DistribucionWeibull.pdf ⟨2, 1⟩ (-1) = 0 ∧ 0 < ecuacion_1_pdf (-1) 2 1 :=
  ⟨(c3_pdf_amended 2 1 (-1) (by norm_num) (by norm_num)).1 (by norm_num),
   (c3_pdf_amended 2 1 (-1) (by norm_num) (by norm_num)).2.2.2 (by norm_num)⟩

/-- The Gamma factor of the estimator never vanishes: for a non-negative
coefficient of variation cv, Gamma(1 + 1/(cv^(-1.09))) is nonzero (for
cv = 0 the Lean junk value gives Gamma 1 = 1; for cv > 0 the argument is
positive). -/
lemma gamma_shape_ne_zero (cv : ℝ) (hcv : 0 ≤ cv) :
    Real.Gamma (1 + 1 / (cv ^ (-1.09 : ℝ))) ≠ 0 := by
  rcases eq_or_lt_of_le hcv with h0 | hpos
  · rw [← h0, Real.zero_rpow (by norm_num : (-1.09:ℝ) ≠ 0)]
    norm_num [Real.Gamma_one]
  · have hk : 0 < cv ^ (-1.09 : ℝ) := Real.rpow_pos_of_pos hpos _
    have harg : 0 < 1 + 1 / (cv ^ (-1.09 : ℝ)) := by positivity
    exact ne_of_gt (Real.Gamma_pos_of_pos harg)

/-- C7: for every sample with positive mean, the recomputed theoretical
mean c * Gamma(1 + 1/k) of the fitted parameters equals the sample mean
exactly, the relative error is below 1e-6, and the reported verification
quantity error_relativo is 0. -/
theorem c7_verification_identity (vs : List ℝ) (hm : 0 < np_mean vs) :
    ecuacion_4_parametro_c (np_mean vs)
        (ecuacion_3_parametro_k (np_mean vs) (np_std_ddof1 vs)) *
      Real.Gamma (1 + 1 / ecuacion_3_parametro_k (np_mean vs) (np_std_ddof1 vs))
      = np_mean vs ∧
    |ecuacion_4_parametro_c (np_mean vs)
        (ecuacion_3_parametro_k (np_mean vs) (np_std_ddof1 vs)) *
      Real.Gamma (1 + 1 / ecuacion_3_parametro_k (np_mean vs) (np_std_ddof1 vs))
      - np_mean vs| / np_mean vs < 1e-6 ∧
    error_relativo vs = 0 := by
  have hcv : 0 ≤ np_std_ddof1 vs / np_mean vs :=
    div_nonneg (Real.sqrt_nonneg _) hm.le
  have hg : Real.Gamma
      (1 + 1 / ecuacion_3_parametro_k (np_mean vs) (np_std_ddof1 vs)) ≠ 0 := by
    rw [ecuacion_3_parametro_k]
    exact gamma_shape_ne_zero _ hcv
  have hmain : ecuacion_4_parametro_c (np_mean vs)
        (ecuacion_3_parametro_k (np_mean vs) (np_std_ddof1 vs)) *
      Real.Gamma (1 + 1 / ecuacion_3_parametro_k (np_mean vs) (np_std_ddof1 vs))
      = np_mean vs := by
    rw [ecuacion_4_parametro_c, div_mul_cancel₀ _ hg]
  refine ⟨hmain, ?_, ?_⟩
  · rw [hmain]
    simp only [sub_self, abs_zero, zero_div]
    norm_num
  · rw [error_relativo]
    rw [hmain]
    simp

/-- C7 witness at the sample [1, 3]. -/
theorem c7_verification_identity_witness :
    0 < np_mean [1, 3] ∧ error_relativo [1, 3] = 0 := by
  have hm : 0 < np_mean ([1, 3] : List ℝ) := by
    simp [np_mean]
    norm_num
  exact ⟨hm, (c7_verification_identity [1, 3] hm).2.2⟩

/-- C8: for every model with positive parameters, the hazard function is
0 for v <= 0 and the closed form (k/c)*(v/c)^(k-1) for v > 0, and on
v > 0 it coincides with pdf(v)/survival(v). -/
theorem c8_hazard_closed_form (k c v : ℝ) (hk : 0 < k) (hc : 0 < c) :
    (v ≤ 0 → DistribucionWeibull.hazard_function ⟨k, c⟩ v = 0) ∧
    (0 < v →
      DistribucionWeibull.hazard_function ⟨k, c⟩ v =
        (k / c) * (v / c) ^ (k - 1) ∧
      DistribucionWeibull.hazard_function ⟨k, c⟩ v =
        DistribucionWeibull.pdf ⟨k, c⟩ v /
          DistribucionWeibull.survival_function ⟨k, c⟩ v) := by
  refine ⟨?_, ?_⟩
  · intro h
    simp [DistribucionWeibull.hazard_function, not_lt.mpr h]
  · intro h
    have hform : DistribucionWeibull.hazard_function ⟨k, c⟩ v =
        (k / c) * (v / c) ^ (k - 1) := by
      simp [DistribucionWeibull.hazard_function, h]
    refine ⟨hform, ?_⟩
    have hv : (0:ℝ) ≤ v := le_of_lt h
    have hpdf : DistribucionWeibull.pdf ⟨k, c⟩ v =
        (k / c) * (v / c) ^ (k - 1) * Real.exp (-((v / c) ^ k)) := by
      simp [DistribucionWeibull.pdf, hv]
    have hsurv : DistribucionWeibull.survival_function ⟨k, c⟩ v =
        Real.exp (-((v / c) ^ k)) := by
      simp [DistribucionWeibull.survival_function, DistribucionWeibull.cdf,
        hv, sub_sub_cancel]
    rw [hform, hpdf, hsurv, mul_div_assoc, div_self (Real.exp_ne_zero _),
      mul_one]

/-- C8 witness at k = 2, c = 1, v = 1. -/
theorem c8_hazard_closed_form_witness :
    DistribucionWeibull.hazard_function ⟨2, 1⟩ 1 =
      (2 / 1) * (1 / 1) ^ ((2:ℝ) - 1) ∧
    DistribucionWeibull.hazard_function ⟨2, 1⟩ 1 =
      DistribucionWeibull.pdf ⟨2, 1⟩ 1 /
        DistribucionWeibull.survival_function ⟨2, 1⟩ 1 :=
  (c8_hazard_closed_form 2 1 1 (by norm_num) (by norm_num)).2 (by norm_num)

/-- C10: calling the percentile at p = 1 passes the inclusive range
check and raises no typed error: the real-valued embedding returns the
formula evaluated at log(1-1) = log 0, and the extended-real rendering
of the code's IEEE arithmetic returns the non-finite value top. -/
theorem c10_percentil_one (k c : ℝ) (hk : 0 < k) (hc : 0 < c) :
    DistribucionWeibull.percentil ⟨k, c⟩ 1 =
      Except.ok (c * ((-Real.log (1 - 1)) ^ (1 / k))) ∧
    DistribucionWeibull.percentil_ieee ⟨k, c⟩ 1 = Except.ok ⊤ := by
  constructor
  · rw [DistribucionWeibull.percentil,
      if_pos (by norm_num : (0:ℝ) ≤ 1 ∧ (1:ℝ) ≤ 1)]
  · rw [DistribucionWeibull.percentil_ieee,
      if_pos (by norm_num : (0:ℝ) ≤ 1 ∧ (1:ℝ) ≤ 1),
      if_pos (by norm_num : (1:ℝ) - 1 = 0),
      ENNReal.top_rpow_of_pos (by positivity),
      ENNReal.mul_top (by simp [ENNReal.ofReal_eq_zero, not_le, hc])]

/-- C10 witness at k = 2, c = 1. -/
theorem c10_percentil_one_witness :
    DistribucionWeibull.percentil ⟨2, 1⟩ 1 =
      Except.ok (1 * ((-Real.log (1 - 1)) ^ ((1:ℝ) / 2))) ∧
    DistribucionWeibull.percentil_ieee ⟨2, 1⟩ 1 = Except.ok ⊤ :=
  c10_percentil_one 2 1 (by norm_num) (by norm_num)

/-- C6 counterexample: at k = 1/10, c = 1 the cdf at 1000 * c is
1 - e^(-1000^(1/10)), and since 1000^(1/10) <= 2 this is at most
1 - e^(-2) < 0.999, refuting the claimed tail bound for all k > 0. -/
theorem c6_cdf_tail_counterexample :
    ¬ (0.999 < DistribucionWeibull.cdf ⟨1/10, 1⟩ (1000 * 1)) := by
  rw [not_lt]
  have h0 : (0:ℝ) ≤ 1000 * 1 := by norm_num
  have hc : DistribucionWeibull.cdf ⟨1/10, 1⟩ (1000 * 1) =
      1 - Real.exp (-((1000:ℝ) ^ ((1:ℝ)/10))) := by
    simp only [DistribucionWeibull.cdf, if_pos h0]
    norm_num
  rw [hc]
  have hpow : (1000:ℝ) ^ ((1:ℝ)/10) ≤ 2 := by
    have h1024 : ((1024:ℝ)) ^ ((1:ℝ)/10) = 2 := by
      have h : (1024:ℝ) = 2 ^ (10:ℕ) := by norm_num
      rw [h, ← Real.rpow_natCast 2 10, ← Real.rpow_mul (by norm_num)]
      norm_num
    calc (1000:ℝ) ^ ((1:ℝ)/10) ≤ (1024:ℝ) ^ ((1:ℝ)/10) :=
          Real.rpow_le_rpow (by norm_num) (by norm_num) (by norm_num)
      _ = 2 := h1024
  have hexp : Real.exp (-2 : ℝ) ≤ Real.exp (-((1000:ℝ) ^ ((1:ℝ)/10))) :=
    Real.exp_le_exp.mpr (by linarith)
  have h2 : (0.001 : ℝ) ≤ Real.exp (-2) := by
    rw [Real.exp_neg]
    have hlt : Real.exp 2 < 1000 := by
      have h1 := Real.exp_one_lt_d9
      have hmul : Real.exp 2 = Real.exp 1 * Real.exp 1 := by
        rw [← Real.exp_add]
        norm_num
      nlinarith [Real.exp_pos 1]
    have hp := Real.exp_pos 2
    have hinv : (1000:ℝ)⁻¹ ≤ (Real.exp 2)⁻¹ := by
      apply inv_le_inv_of_le hp hlt.le
    norm_num at hinv ⊢
    linarith
  linarith

/-- C6 amended: for every model with k > 0 and c > 0 the cdf is 0 on
negatives and 1 - e^(-(v/c)^k) on non-negatives, vanishes at 0, and is
monotone non-decreasing; the tail bound cdf(1000*c) > 0.999 holds for
k >= 1 (it fails for small k, see the counterexample). -/
theorem c6_cdf_properties (k c : ℝ) (hk : 0 < k) (hc : 0 < c) :
    (∀ v : ℝ, v < 0 → DistribucionWeibull.cdf ⟨k, c⟩ v = 0) ∧
    (∀ v : ℝ, 0 ≤ v → DistribucionWeibull.cdf ⟨k, c⟩ v =
      1 - Real.exp (-((v / c) ^ k))) ∧
    DistribucionWeibull.cdf ⟨k, c⟩ 0 = 0 ∧
    (∀ v1 v2 : ℝ, v1 ≤ v2 →
      DistribucionWeibull.cdf ⟨k, c⟩ v1 ≤ DistribucionWeibull.cdf ⟨k, c⟩ v2) ∧
    (1 ≤ k → 0.999 < DistribucionWeibull.cdf ⟨k, c⟩ (1000 * c)) := by
  have hpos : ∀ v : ℝ, 0 ≤ v → DistribucionWeibull.cdf ⟨k, c⟩ v =
      1 - Real.exp (-((v / c) ^ k)) := by
    intro v hv
    simp [DistribucionWeibull.cdf, hv]
  have hnn : ∀ v : ℝ, 0 ≤ v → 0 ≤ DistribucionWeibull.cdf ⟨k, c⟩ v := by
    intro v hv
    rw [hpos v hv]
    have ht : 0 ≤ (v / c) ^ k := Real.rpow_nonneg (div_nonneg hv hc.le) k
    have hle : Real.exp (-((v / c) ^ k)) ≤ Real.exp 0 :=
      Real.exp_le_exp.mpr (by linarith)
    rw [Real.exp_zero] at hle
    linarith
  refine ⟨?_, hpos, ?_, ?_, ?_⟩
  · intro v hv
    simp [DistribucionWeibull.cdf, not_le.mpr hv]
  · rw [hpos 0 le_rfl, zero_div, Real.zero_rpow (ne_of_gt hk), neg_zero,
      Real.exp_zero]
    ring
  · intro v1 v2 h12
    by_cases h1 : 0 ≤ v1
    · have h2 : 0 ≤ v2 := le_trans h1 h12
      rw [hpos v1 h1, hpos v2 h2]
      have ht : (v1 / c) ^ k ≤ (v2 / c) ^ k := by
        apply Real.rpow_le_rpow (div_nonneg h1 hc.le) _ hk.le
        gcongr
      have := Real.exp_le_exp.mpr (neg_le_neg ht)
      linarith
    · push_neg at h1
      by_cases h2 : 0 ≤ v2
      · have hz : DistribucionWeibull.cdf ⟨k, c⟩ v1 = 0 := by
          simp [DistribucionWeibull.cdf, not_le.mpr h1]
        rw [hz]
        exact hnn v2 h2
      · push_neg at h2
        simp [DistribucionWeibull.cdf, not_le.mpr h1, not_le.mpr h2]
  · intro hk1
    have h0 : (0:ℝ) ≤ 1000 * c := by positivity
    rw [hpos _ h0]
    have hbase : (1000 * c / c) = (1000:ℝ) := by
      field_simp
    rw [hbase]
    have h1000 : (1000:ℝ) ≤ (1000:ℝ) ^ k := by
      have h := Real.rpow_le_rpow_of_exponent_le (by norm_num : (1:ℝ) ≤ 1000) hk1
      rwa [Real.rpow_one] at h
    have hexp : Real.exp (-(1000:ℝ) ^ k) ≤ Real.exp (-1000) :=
      Real.exp_le_exp.mpr (by linarith)
    have h2 : Real.exp (-1000 : ℝ) < 0.001 := by
      rw [Real.exp_neg]
      have hlt : (1000:ℝ) < Real.exp 1000 := by
        have := Real.add_one_le_exp (1000:ℝ)
        linarith
      have hinv : (Real.exp 1000)⁻¹ < (1000:ℝ)⁻¹ :=
        inv_lt_inv_of_lt (by norm_num) hlt
      norm_num at hinv ⊢
      linarith
    linarith

/-- C6 witness at k = 2, c = 1: the cdf vanishes at 0 and exceeds 0.999
at 1000 * 1. -/
theorem c6_cdf_properties_witness :
    DistribucionWeibull.cdf ⟨2, 1⟩ 0 = 0 ∧
    0.999 < DistribucionWeibull.cdf ⟨2, 1⟩ (1000 * 1) :=
  ⟨(c6_cdf_properties 2 1 (by norm_num) (by norm_num)).2.2.1,
   (c6_cdf_properties 2 1 (by norm_num) (by norm_num)).2.2.2.2 (by norm_num)⟩
